import Mathlib

/-!
Shallow embedding of the may_thread crate.

Two components are modelled, each from its source file:
  - `MayThread` embeds src/lib.rs: the one-shot `join` bridge that runs a
    closure on a fresh OS thread and parks the calling coroutine until the
    worker stores an outcome and unparks it.
  - `ThreadPool` embeds src/pool.rs: the fixed-size worker pool with a
    shared mpmc work queue and per-worker private state.

Closures are modelled by the value `panic::catch_unwind` produces for them:
an `Except E T` that is `Except.ok v` when the closure returns `v` and
`Except.error e` when it panics with payload `e`.  Jobs handed to pool
workers mutate the worker state, so they are modelled as functions `S → S`.
-/

namespace MayThread

/-- Result of `blocker.park(None)` as used in src/lib.rs line 101: either a
normal wake (the worker called `unpark`) or a cancellation error.  The code
comment at line 110 notes a timeout error is impossible because no timeout
is passed. -/
inductive ParkResult
  | ok
  | cancelled
deriving DecidableEq, Repr

/-- The two shared atomic option slots allocated in src/lib.rs lines 79-80:
`ret` holds a successful result, `err` holds a caught panic payload.  Both
start out empty. -/
structure Slots (T E : Type) where
  ret : Option T
  err : Option E
deriving DecidableEq, Repr

/-- Worker thread body, src/lib.rs lines 86-97: run `f` inside
`panic::catch_unwind` (the outcome is the `exit` argument, `Except.ok` for a
normal return, `Except.error` for a panic payload), store the outcome in the
matching slot via `swap`, then unpark the blocker.  Exactly one slot is
filled. -/
def workerSlots {T E : Type} (exit : Except E T) : Slots T E :=
  match exit with
  | Except.ok r => { ret := some r, err := none }
  | Except.error e => { ret := none, err := some e }

/-- The four ways `join` can leave the caller, src/lib.rs lines 101-114:
a normal return of the value, `panic::resume_unwind` of the caught payload,
the `panic!("failed to get result")` consistency failure, or
`coroutine::trigger_cancel_panic()` on cancellation.  Only `value` is a
normal return to the caller. -/
inductive JoinResult (T E : Type)
  | value (t : T)
  | reraise (e : E)
  | fatal
  | cancelPanic
deriving DecidableEq, Repr

/-- Caller side after `blocker.park(None)` returns, src/lib.rs lines
101-114: on a normal wake take `ret`; if empty take `err` and resume its
payload; if both are empty, panic with "failed to get result".  On a
cancellation error neither slot is touched and
`coroutine::trigger_cancel_panic()` is invoked. -/
def joinAfterPark {T E : Type} (park : ParkResult) (s : Slots T E) : JoinResult T E :=
  match park with
  | ParkResult.ok =>
    match s.ret with
    | some v => JoinResult.value v
    | none =>
      match s.err with
      | some p => JoinResult.reraise p
      | none => JoinResult.fatal
  | ParkResult.cancelled => JoinResult.cancelPanic

/-- Whole-call model of `join` (src/lib.rs lines 73-115).  On a normal (non
cancelled) wake the Blocker contract guarantees the worker already wrote the
slots and called `unpark`, so the caller reads exactly `workerSlots exit`. -/
def join {T E : Type} (exit : Except E T) (park : ParkResult) : JoinResult T E :=
  joinAfterPark park (workerSlots exit)

end MayThread

namespace ThreadPool

/-- Identity of a thread during `ThreadPool::new` (src/pool.rs lines 37-60):
either the thread that called `new`, or one of the spawned workers. -/
inductive ThreadId
  | caller
  | worker (i : Nat)
deriving DecidableEq, Repr

/-- Events of the construction loop in src/pool.rs lines 43-54. -/
inductive PoolEvent
  | factoryCall (i : Nat)
  | spawnWorker (i : Nat)
deriving DecidableEq, Repr

/-- Trace of `ThreadPool::new` (src/pool.rs lines 41-54): the `for _i in
0..size` loop body runs on the thread calling `new`; each iteration first
invokes the factory (`let mut state = f();`) and then calls
`thread::spawn`, moving the freshly built state into the new worker (which
is why the impl requires `S: Send`). -/
def newTrace : Nat → List (ThreadId × PoolEvent)
  | 0 => []
  | n + 1 =>
    newTrace n ++
      [(ThreadId.caller, PoolEvent.factoryCall n),
       (ThreadId.caller, PoolEvent.spawnWorker n)]

/-- How many times the factory is invoked for worker `i` during
construction of a pool of the given size. -/
def factoryCalls (size i : Nat) : Nat :=
  (newTrace size).countP (fun p => p.2 = PoolEvent.factoryCall i)

/-- Recognizer for spawn events. -/
def isSpawn : PoolEvent → Bool
  | PoolEvent.spawnWorker _ => true
  | _ => false

/-- Number of `thread::spawn` calls made by `ThreadPool::new`. -/
def spawnCount (size : Nat) : Nat :=
  (newTrace size).countP (fun p => isSpawn p.2)

/-- Number of live receiver handles of the work queue right after
`ThreadPool::new` returns (src/pool.rs lines 41-60): each loop iteration
clones `rx` into the spawned worker, and the original `rx` goes out of
scope when `new` returns, leaving exactly one receiver per worker. -/
def receiversAfterNew (size : Nat) : Nat := size

/-- An mpmc `send` succeeds exactly when at least one receiver handle is
still alive. -/
def sendOkAfterNew (size : Nat) : Bool := decide (0 < receiversAfterNew size)

/-- Outcomes of `ThreadPool::join` (src/pool.rs lines 64-85) as seen by the
caller: a normal return of the unwrapped value, a panic from `unwrap` on a
caught job panic (`Err`), undefined behavior from unwrapping the
`mem::zeroed()` initializer when the job has not yet written `ret`, or the
panic of `.expect("failed to send to work queue")`. -/
inductive PoolJoinResult (T : Type)
  | value (t : T)
  | unwrapPanic
  | undefinedBehavior
  | sendPanic
deriving DecidableEq, Repr

/-- Model of `ThreadPool::join` (src/pool.rs lines 64-85).  The code
initializes `ret` with `mem::zeroed()`, boxes a closure that runs `f` under
`panic::catch_unwind` and writes the outcome into `ret`, sends the box to
the queue (`.expect` panics on failure, before any sleep), then sleeps a
fixed one second with `coroutine::sleep` and unwraps whatever `ret` holds.
`sendOk` is whether the mpmc send succeeded; `finishedWithinSleep` is
whether a worker ran the job to completion before the fixed sleep elapsed;
`exit` is the `catch_unwind` outcome of `f` on the worker state.  If the
job has not finished when the sleep ends, `ret` still holds the zeroed
bytes and unwrapping it is undefined behavior. -/
def join {T E : Type} (sendOk finishedWithinSleep : Bool) (exit : Except E T) :
    PoolJoinResult T :=
  if sendOk then
    if finishedWithinSleep then
      match exit with
      | Except.ok v => PoolJoinResult.value v
      | Except.error _ => PoolJoinResult.unwrapPanic
    else PoolJoinResult.undefinedBehavior
  else PoolJoinResult.sendPanic

/-- Whether the job ever reaches the work queue in `ThreadPool::join`
(src/pool.rs lines 78-80): the send is the first effect after boxing, and
when it fails the `.expect` panics immediately, so no worker ever receives
the closure. -/
def jobReachesQueue (sendOk : Bool) : Bool := sendOk

/-- Events of `ThreadPool::drop` (src/pool.rs lines 88-100). -/
inductive DropEvent
  | closeProducer
  | workerExit (i : Nat)
  | dropReturns
deriving DecidableEq, Repr

/-- Trace of `ThreadPool::drop` (src/pool.rs lines 88-100): first replace
`self.queue_tx` with a fresh sender whose receiver is dropped on the spot
(closing the producer side of the workers queue, so their `rx.into_iter()`
loops end once the queue is drained), then `join()` each worker handle in
order; each join returns only when that worker thread has exited, and only
after the last join does `drop` return. -/
def dropTrace (size : Nat) : List DropEvent :=
  (DropEvent.closeProducer :: (List.range size).map DropEvent.workerExit)
    ++ [DropEvent.dropReturns]

/-- Worker loop of src/pool.rs lines 47-52: `for work in rx.into_iter()`
runs each dequeued boxed job against the private state; the loop ends only
when the iterator is exhausted, i.e. after every dequeued job has been
executed. -/
def workerDrain {S : Type} (state : S) (jobs : List (S → S)) : S :=
  jobs.foldl (fun s j => j s) state

/-- A job dequeued by worker `i` runs against `&mut state` of that worker
only (src/pool.rs line 50): in a vector of the worker states, executing a
job on worker `i` rewrites entry `i` and nothing else. -/
def applyJobAt {S : Type} (j : S → S) : Nat → List S → List S
  | _, [] => []
  | 0, s :: rest => j s :: rest
  | n + 1, s :: rest => s :: applyJobAt j n rest

end ThreadPool

/-! ### Helper lemmas -/

namespace ThreadPool

lemma newTrace_thread_caller (size : Nat) :
    ∀ p ∈ newTrace size, p.1 = ThreadId.caller := by
  induction size with
  | zero => intro p hp; simp [newTrace] at hp
  | succ n ih =>
    intro p hp
    simp only [newTrace, List.mem_append, List.mem_cons, List.not_mem_nil,
      or_false] at hp
    rcases hp with hp | hp | hp
    · exact ih p hp
    · rw [hp]
    · rw [hp]

lemma newTrace_factory_lt (size : Nat) :
    ∀ p ∈ newTrace size, ∀ k, p.2 = PoolEvent.factoryCall k → k < size := by
  induction size with
  | zero => intro p hp; simp [newTrace] at hp
  | succ n ih =>
    intro p hp k hk
    simp only [newTrace, List.mem_append, List.mem_cons, List.not_mem_nil,
      or_false] at hp
    rcases hp with hp | hp | hp
    · exact Nat.lt_succ_of_lt (ih p hp k hk)
    · rw [hp] at hk
      simp only [PoolEvent.factoryCall.injEq] at hk
      omega
    · rw [hp] at hk
      simp at hk

lemma factoryCalls_eq_one (size i : Nat) (h : i < size) : factoryCalls size i = 1 := by
  induction size with
  | zero => omega
  | succ n ih =>
    unfold factoryCalls at ih ⊢
    rw [newTrace, List.countP_append]
    rcases Nat.lt_succ_iff_lt_or_eq.1 h with h1 | h1
    · rw [ih h1]
      have hne : n ≠ i := by omega
      simp [List.countP_cons, hne]
    · subst h1
      have h0 : (newTrace i).countP (fun p => decide (p.2 = PoolEvent.factoryCall i)) = 0 := by
        apply List.countP_eq_zero.2
        intro a ha
        simp only [decide_eq_true_eq]
        intro hh
        exact absurd (newTrace_factory_lt i a ha i hh) (lt_irrefl i)
      rw [h0]
      simp [List.countP_cons]

lemma spawnCount_eq (size : Nat) : spawnCount size = size := by
  induction size with
  | zero => rfl
  | succ n ih =>
    unfold spawnCount at ih ⊢
    rw [newTrace, List.countP_append, ih]
    simp [List.countP_cons, isSpawn]

lemma applyJobAt_get_ne {S : Type} (j : S → S) :
    ∀ (i k : Nat) (states : List S), i ≠ k →
      (applyJobAt j i states).get? k = states.get? k := by
  intro i k states
  induction states generalizing i k with
  | nil => intro _; simp [applyJobAt]
  | cons s rest ih =>
    intro h
    cases i with
    | zero =>
      cases k with
      | zero => exact absurd rfl h
      | succ k => simp [applyJobAt]
    | succ n =>
      cases k with
      | zero => simp [applyJobAt]
      | succ k =>
        simp only [applyJobAt, List.get?_cons_succ]
        exact ih n k (fun hh => h (by rw [hh]))

end ThreadPool

/-! ### Claim theorems -/

namespace MayThread

/-- Claim C3: for every closure that returns a value `v` without failing
(`exit = Except.ok v`), `join` (the crate run_blocking primitive) returns
exactly `v` to the caller on the normal wake. -/
theorem join_transparency {T E : Type} (v : T) :
    join (Except.ok v : Except E T) ParkResult.ok = JoinResult.value v := rfl

/-- Claim C4: for every closure that panics with payload `e`
(`exit = Except.error e`), `join` re-raises exactly `e` in the caller via
`resume_unwind`; moreover `join` re-raises some payload on a normal wake
if and only if the closure itself failed. -/
theorem join_failure_transparency {T E : Type} (e : E) :
    join (Except.error e : Except E T) ParkResult.ok = JoinResult.reraise e ∧
    ∀ exit : Except E T,
      (∃ p, join exit ParkResult.ok = JoinResult.reraise p) ↔
        ∃ p, exit = Except.error p := by
  refine ⟨rfl, ?_⟩
  intro exit
  cases exit with
  | ok v => simp [join, joinAfterPark, workerSlots]
  | error p => simp [join, joinAfterPark, workerSlots]

/-- Claim C5: in `join`, if the caller wakes from park without cancellation
and both the `ret` slot and the `err` slot are empty, the call ends in the
`panic!("failed to get result")` fatal error, not in a normal return of any
default value. -/
theorem join_empty_slots_fatal {T E : Type} (s : Slots T E)
    (hr : s.ret = none) (he : s.err = none) :
    joinAfterPark ParkResult.ok s = JoinResult.fatal := by
  cases s
  simp only at hr he
  subst hr
  subst he
  rfl

/-- Witness for C5 at the concrete empty slots of type `Slots Nat String`. -/
theorem join_empty_slots_fatal_witness :
    (Slots.mk (none : Option Nat) (none : Option String)).ret = none ∧
    (Slots.mk (none : Option Nat) (none : Option String)).err = none ∧
    joinAfterPark ParkResult.ok (Slots.mk (none : Option Nat) (none : Option String)) =
      JoinResult.fatal :=
  ⟨rfl, rfl, join_empty_slots_fatal (Slots.mk none none) rfl rfl⟩

/-- Claim C6: when park reports cancellation, `join` never reads the outcome
slots (the result is the same whatever the slots hold), invokes
`coroutine::trigger_cancel_panic()`, and does not return normally to the
caller. -/
theorem join_cancelled_no_read {T E : Type} (s t : Slots T E) :
    joinAfterPark ParkResult.cancelled s = JoinResult.cancelPanic ∧
    joinAfterPark ParkResult.cancelled s = joinAfterPark ParkResult.cancelled t ∧
    ∀ v, joinAfterPark ParkResult.cancelled s ≠ JoinResult.value v := by
  refine ⟨rfl, rfl, ?_⟩
  intro v h
  simp [joinAfterPark] at h

end MayThread

namespace ThreadPool

/-- Claim C1 (code bug): a `ThreadPool::join` call whose job has not finished
when the fixed one-second `coroutine::sleep` elapses unwraps the
`mem::zeroed()` initializer — undefined behavior — instead of suspending
until the worker signals completion, and in particular does not return the
value the job produces. -/
theorem join_unfinished_job_ub :
    join true false (Except.ok 42 : Except String Nat) =
      PoolJoinResult.undefinedBehavior ∧
    ∀ v : Nat, join true false (Except.ok 42 : Except String Nat) ≠
      PoolJoinResult.value v := by
  refine ⟨rfl, ?_⟩
  intro v h
  simp [join] at h

/-- Claim C2 counterexample: in a pool of size 1 the (unique) factory
invocation for worker 0 happens on the thread calling `new`, not on worker
0 own thread, refuting the claim that each factory invocation runs on the
respective worker thread. -/
theorem new_factory_thread_cex :
    (ThreadId.caller, PoolEvent.factoryCall 0) ∈ newTrace 1 ∧
    ThreadId.caller ≠ ThreadId.worker 0 ∧
    ∀ p ∈ newTrace 1, p.2 = PoolEvent.factoryCall 0 → p.1 ≠ ThreadId.worker 0 := by
  decide

/-- Claim C2 (amended): `ThreadPool::new` invokes the factory exactly once
per worker, every construction event (factory call and spawn) happens on
the thread calling `new` — the produced state is then moved into the worker
thread, which is why `S: Send` is required — and exactly `size` worker
threads are spawned. -/
theorem new_factory_once_on_caller (size i : Nat) (h : i < size) :
    factoryCalls size i = 1 ∧
    (∀ p ∈ newTrace size, p.1 = ThreadId.caller) ∧
    spawnCount size = size :=
  ⟨factoryCalls_eq_one size i h, newTrace_thread_caller size, spawnCount_eq size⟩

/-- Witness for the amended C2 at size 1, worker 0. -/
theorem new_factory_once_on_caller_witness :
    0 < 1 ∧
    (factoryCalls 1 0 = 1 ∧
     (∀ p ∈ newTrace 1, p.1 = ThreadId.caller) ∧
     spawnCount 1 = 1) :=
  ⟨by decide, new_factory_once_on_caller 1 0 (by decide)⟩

/-- Claim C7: `ThreadPool::drop` first closes the producer side of the
queue, joins every worker before returning (each worker exit event is
strictly before the return event, which is the last event of the drop
trace), and every job still pending in the queue when shutdown begins is
delivered to one of the workers (given the mpmc contract that the dequeues
of the workers exactly partition the pending jobs). -/
theorem drop_shutdown {S : Type} (size : Nat)
    (pending : List (S → S)) (parts : List (List (S → S)))
    (hdq : parts.flatten = pending) :
    (dropTrace size).head? = some DropEvent.closeProducer ∧
    (dropTrace size).getLast? = some DropEvent.dropReturns ∧
    (∀ i, i < size → DropEvent.workerExit i ∈ (dropTrace size).dropLast) ∧
    (∀ j ∈ pending, ∃ p ∈ parts, j ∈ p) := by
  refine ⟨rfl, ?_, ?_, ?_⟩
  · exact List.getLast?_concat _
  · intro i hi
    unfold dropTrace
    simp only [List.dropLast_concat, List.mem_cons, List.mem_map, List.mem_range]
    exact Or.inr ⟨i, hi, rfl⟩
  · intro j hj
    rw [← hdq] at hj
    exact List.mem_flatten.1 hj

/-- Witness for C7 at size 2 with one pending job delivered to worker 0. -/
theorem drop_shutdown_witness :
    ([[(id : Nat → Nat)], []].flatten = [id]) ∧
    ((dropTrace 2).head? = some DropEvent.closeProducer ∧
     (dropTrace 2).getLast? = some DropEvent.dropReturns ∧
     (∀ i, i < 2 → DropEvent.workerExit i ∈ (dropTrace 2).dropLast) ∧
     (∀ j ∈ [(id : Nat → Nat)], ∃ p ∈ [[(id : Nat → Nat)], []], j ∈ p)) :=
  ⟨rfl, drop_shutdown 2 [id] [[id], []] rfl⟩

/-- Claim C8: when the mpmc send of the boxed job fails because the
receiving side of the queue is gone, `ThreadPool::join` panics through
`.expect("failed to send to work queue")` and never returns a value. -/
theorem join_send_failure_panics {T E : Type} (finished : Bool)
    (exit : Except E T) :
    join false finished exit = PoolJoinResult.sendPanic ∧
    ∀ v, join false finished exit ≠ PoolJoinResult.value v := by
  refine ⟨rfl, ?_⟩
  intro v h
  simp [join] at h

/-- Claim C9: two jobs run in sequence by one worker compose on that worker
state, so the second sees the mutation of the first; and a job executed by
worker `i` leaves the state of every other worker `k` unchanged, since it
only receives the private state of worker `i`. -/
theorem state_isolation {S : Type} (s : S) (j1 j2 : S → S)
    (states : List S) (i k : Nat) (h : i ≠ k) :
    workerDrain s [j1, j2] = j2 (j1 s) ∧
    (applyJobAt j1 i states).get? k = states.get? k :=
  ⟨rfl, applyJobAt_get_ne j1 i k states h⟩

/-- Witness for C9 with two increment jobs on worker 0 of a two-worker
pool. -/
theorem state_isolation_witness :
    (0 : Nat) ≠ 1 ∧
    (workerDrain (0 : Nat) [Nat.succ, Nat.succ] = Nat.succ (Nat.succ 0) ∧
     (applyJobAt Nat.succ 0 [3, 4]).get? 1 = [3, 4].get? 1) :=
  ⟨by decide, state_isolation 0 Nat.succ Nat.succ [3, 4] 0 1 (by decide)⟩

/-- Claim C10: after `ThreadPool::new(factory, 0)` no receiver of the work
queue is left alive, so every subsequent `ThreadPool::join` call fails its
send and panics at the `.expect`, and the submitted job never reaches the
queue (hence is never executed). -/
theorem size_zero_join_panics :
    receiversAfterNew 0 = 0 ∧
    sendOkAfterNew 0 = false ∧
    (∀ (finished : Bool) (exit : Except String Nat),
      join (sendOkAfterNew 0) finished exit = PoolJoinResult.sendPanic) ∧
    jobReachesQueue (sendOkAfterNew 0) = false := by
  refine ⟨rfl, rfl, ?_, rfl⟩
  intro finished exit
  rfl

end ThreadPool
